import Mathlib

/-!
Verification of `buildTextToImageGraph`
(`src/invokeai/frontend/web/src/features/nodes/util/graphBuilders/buildTextToImageGraph.ts`)
against its natural-language specification.

The TypeScript function is a pure graph assembler: it reads a flat
configuration snapshot (`state.generation`) and produces a graph of typed
nodes and field-level edges.  We embed it shallowly: the configuration is a
Lean structure, the node variants are an inductive type, the node map is an
association list with JavaScript-object insertion semantics (assigning an
existing key updates in place, a fresh key appends), and the four sequential
`if` blocks are translated as four sequential conditional graph extensions.
-/

namespace T2I

/-- The node id string constants of the source file (lines 15-22). -/
def POSITIVE_CONDITIONING : String := "positive_conditioning"

def NEGATIVE_CONDITIONING : String := "negative_conditioning"

def TEXT_TO_LATENTS : String := "text_to_latents"

def LATENTS_TO_IMAGE : String := "latents_to_image"

def NOISE : String := "noise"

def RANDOM_INT : String := "rand_int"

def RANGE_OF_SIZE : String := "range_of_size"

def ITERATE : String := "iterate"

/-- The slice of `state.generation` the builder destructures (lines 28-40).
Numeric fields are integers; `seed`, `width`, `height`, `iterations` are the
ones the seed branches read. -/
structure GenerationState where
  positivePrompt : String
  negativePrompt : String
  model : String
  cfgScale : Int
  scheduler : String
  steps : Int
  width : Int
  height : Int
  iterations : Int
  seed : Int
  shouldRandomizeSeed : Bool
  deriving Repr, DecidableEq

/-- The invocation (node) variants the builder constructs.  Each carries its
`id` plus its kind-specific parameters, exactly the fields the source sets.
A `noise` node's `seed` and a `range_of_size` node's `start` are optional:
the source sometimes omits them. -/
inductive Node where
  | compel (id : String) (prompt : String) (model : String)
  | t2l (id : String) (cfg_scale : Int) (model : String) (scheduler : String) (steps : Int)
  | l2i (id : String) (model : String)
  | noise (id : String) (seed : Option Int) (width : Int) (height : Int)
  | randInt (id : String)
  | rangeOfSize (id : String) (start : Option Int) (size : Int)
  | iterate (id : String)
  deriving Repr, DecidableEq

/-- The `id` field every node variant carries. -/
def Node.id : Node → String
  | .compel i _ _ => i
  | .t2l i _ _ _ _ => i
  | .l2i i _ => i
  | .noise i _ _ _ => i
  | .randInt i => i
  | .rangeOfSize i _ _ => i
  | .iterate i => i

/-- One end of an edge: a node id and a field name. -/
structure EdgeEnd where
  node_id : String
  field : String
  deriving Repr, DecidableEq

/-- An edge of the graph (source field to destination field). -/
structure Edge where
  source : EdgeEnd
  destination : EdgeEnd
  deriving Repr, DecidableEq

/-- The graph: a node map (association list keyed by node id, in insertion
order, as a JavaScript object holds string keys) and an ordered edge list. -/
structure Graph where
  nodes : List (String × Node)
  edges : List Edge
  deriving Repr, DecidableEq

/-- JavaScript-object assignment `nodes[k] = v`: an existing key keeps its
position and gets the new value, a fresh key is appended. -/
def insertNode (nodes : List (String × Node)) (k : String) (v : Node) :
    List (String × Node) :=
  if nodes.any (fun p => p.1 = k) then
    nodes.map (fun p => if p.1 = k then (k, v) else p)
  else nodes ++ [(k, v)]

/-- The keys of the graph's node map. -/
def Graph.keys (g : Graph) : List String := g.nodes.map Prod.fst

/-- Modelled from the spec: `addControlNetToLinearGraph`, the external
feature-extender collaborator invoked at line 313, is not part of the staged
sources.  The claims consider it as a no-op, and the spec (§8.7) states that
as a no-op it leaves the graph exactly as the base assembler produced it:
`extend(graph, attachmentNodeId, config)` returns with the graph unchanged. -/
def addControlNetToLinearGraph (graph : Graph) (_baseNodeId : String)
    (_state : GenerationState) : Graph :=
  graph

/-- The assembler, translated statement by statement from lines 27-316 of
the source: the four fixed nodes and three fixed edges, then the four
sequential `if` blocks on `(shouldRandomizeSeed, iterations)`, then the
feature-extender call. -/
def buildTextToImageGraph (state : GenerationState) : Graph :=
  let positiveConditioningNode : Node :=
    .compel POSITIVE_CONDITIONING state.positivePrompt state.model
  let negativeConditioningNode : Node :=
    .compel NEGATIVE_CONDITIONING state.negativePrompt state.model
  let textToLatentsNode : Node :=
    .t2l TEXT_TO_LATENTS state.cfgScale state.model state.scheduler state.steps
  let latentsToImageNode : Node := .l2i LATENTS_TO_IMAGE state.model
  let nodes0 :=
    insertNode (insertNode (insertNode (insertNode []
      POSITIVE_CONDITIONING positiveConditioningNode)
      NEGATIVE_CONDITIONING negativeConditioningNode)
      TEXT_TO_LATENTS textToLatentsNode)
      LATENTS_TO_IMAGE latentsToImageNode
  let edges0 : List Edge :=
    [⟨⟨POSITIVE_CONDITIONING, "conditioning"⟩,
      ⟨TEXT_TO_LATENTS, "positive_conditioning"⟩⟩,
     ⟨⟨NEGATIVE_CONDITIONING, "conditioning"⟩,
      ⟨TEXT_TO_LATENTS, "negative_conditioning"⟩⟩,
     ⟨⟨TEXT_TO_LATENTS, "latents"⟩, ⟨LATENTS_TO_IMAGE, "latents"⟩⟩]
  let g : Graph := ⟨nodes0, edges0⟩
  -- Single iteration, explicit seed (lines 119-139)
  let g : Graph :=
    if state.shouldRandomizeSeed = false ∧ state.iterations = 1 then
      ⟨insertNode g.nodes NOISE
          (.noise NOISE (some state.seed) state.width state.height),
       g.edges ++ [⟨⟨NOISE, "noise"⟩, ⟨TEXT_TO_LATENTS, "noise"⟩⟩]⟩
    else g
  -- Single iteration, random seed (lines 142-177)
  let g : Graph :=
    if state.shouldRandomizeSeed = true ∧ state.iterations = 1 then
      ⟨insertNode (insertNode g.nodes RANDOM_INT (.randInt RANDOM_INT))
          NOISE (.noise NOISE none state.width state.height),
       g.edges ++
         [⟨⟨RANDOM_INT, "a"⟩, ⟨NOISE, "seed"⟩⟩,
          ⟨⟨NOISE, "noise"⟩, ⟨TEXT_TO_LATENTS, "noise"⟩⟩]⟩
    else g
  -- Multiple iterations, explicit seed (lines 180-239)
  let g : Graph :=
    if state.shouldRandomizeSeed = false ∧ state.iterations > 1 then
      ⟨insertNode (insertNode (insertNode g.nodes
          RANGE_OF_SIZE
            (.rangeOfSize RANGE_OF_SIZE (some state.seed) state.iterations))
          ITERATE (.iterate ITERATE))
          NOISE (.noise NOISE none state.width state.height),
       g.edges ++
         [⟨⟨RANGE_OF_SIZE, "collection"⟩, ⟨ITERATE, "collection"⟩⟩,
          ⟨⟨ITERATE, "item"⟩, ⟨NOISE, "seed"⟩⟩,
          ⟨⟨NOISE, "noise"⟩, ⟨TEXT_TO_LATENTS, "noise"⟩⟩]⟩
    else g
  -- Multiple iterations, random seed (lines 242-311)
  let g : Graph :=
    if state.shouldRandomizeSeed = true ∧ state.iterations > 1 then
      ⟨insertNode (insertNode (insertNode (insertNode g.nodes
          RANDOM_INT (.randInt RANDOM_INT))
          RANGE_OF_SIZE (.rangeOfSize RANGE_OF_SIZE none state.iterations))
          ITERATE (.iterate ITERATE))
          NOISE (.noise NOISE none state.width state.height),
       g.edges ++
         [⟨⟨RANDOM_INT, "a"⟩, ⟨RANGE_OF_SIZE, "start"⟩⟩,
          ⟨⟨RANGE_OF_SIZE, "collection"⟩, ⟨ITERATE, "collection"⟩⟩,
          ⟨⟨ITERATE, "item"⟩, ⟨NOISE, "seed"⟩⟩,
          ⟨⟨NOISE, "noise"⟩, ⟨TEXT_TO_LATENTS, "noise"⟩⟩]⟩
    else g
  addControlNetToLinearGraph g TEXT_TO_LATENTS state

/-! ### Normal forms of the assembler, one per seed-topology case -/

/-- The four fixed nodes (conditioning, denoise, decode) in insertion order. -/
def baseNodes (s : GenerationState) : List (String × Node) :=
  [(POSITIVE_CONDITIONING, .compel POSITIVE_CONDITIONING s.positivePrompt s.model),
   (NEGATIVE_CONDITIONING, .compel NEGATIVE_CONDITIONING s.negativePrompt s.model),
   (TEXT_TO_LATENTS, .t2l TEXT_TO_LATENTS s.cfgScale s.model s.scheduler s.steps),
   (LATENTS_TO_IMAGE, .l2i LATENTS_TO_IMAGE s.model)]

/-- The three fixed sub-pipeline edges in insertion order. -/
def baseEdges : List Edge :=
  [⟨⟨POSITIVE_CONDITIONING, "conditioning"⟩,
    ⟨TEXT_TO_LATENTS, "positive_conditioning"⟩⟩,
   ⟨⟨NEGATIVE_CONDITIONING, "conditioning"⟩,
    ⟨TEXT_TO_LATENTS, "negative_conditioning"⟩⟩,
   ⟨⟨TEXT_TO_LATENTS, "latents"⟩, ⟨LATENTS_TO_IMAGE, "latents"⟩⟩]

/-- The edge from the noise node's output into the denoise node. -/
def noiseT2LEdge : Edge := ⟨⟨NOISE, "noise"⟩, ⟨TEXT_TO_LATENTS, "noise"⟩⟩

lemma build_explicit_single (s : GenerationState)
    (hr : s.shouldRandomizeSeed = false) (hi : s.iterations = 1) :
    buildTextToImageGraph s =
      ⟨baseNodes s ++ [(NOISE, .noise NOISE (some s.seed) s.width s.height)],
       baseEdges ++ [noiseT2LEdge]⟩ := by
  simp [buildTextToImageGraph, addControlNetToLinearGraph, insertNode, hr, hi,
    baseNodes, baseEdges, noiseT2LEdge,
    POSITIVE_CONDITIONING, NEGATIVE_CONDITIONING, TEXT_TO_LATENTS,
    LATENTS_TO_IMAGE, NOISE, RANDOM_INT, RANGE_OF_SIZE, ITERATE]

lemma build_random_single (s : GenerationState)
    (hr : s.shouldRandomizeSeed = true) (hi : s.iterations = 1) :
    buildTextToImageGraph s =
      ⟨baseNodes s ++
         [(RANDOM_INT, .randInt RANDOM_INT),
          (NOISE, .noise NOISE none s.width s.height)],
       baseEdges ++ [⟨⟨RANDOM_INT, "a"⟩, ⟨NOISE, "seed"⟩⟩, noiseT2LEdge]⟩ := by
  simp [buildTextToImageGraph, addControlNetToLinearGraph, insertNode, hr, hi,
    baseNodes, baseEdges, noiseT2LEdge,
    POSITIVE_CONDITIONING, NEGATIVE_CONDITIONING, TEXT_TO_LATENTS,
    LATENTS_TO_IMAGE, NOISE, RANDOM_INT, RANGE_OF_SIZE, ITERATE]

lemma build_explicit_multi (s : GenerationState)
    (hr : s.shouldRandomizeSeed = false) (hi : 1 < s.iterations) :
    buildTextToImageGraph s =
      ⟨baseNodes s ++
         [(RANGE_OF_SIZE, .rangeOfSize RANGE_OF_SIZE (some s.seed) s.iterations),
          (ITERATE, .iterate ITERATE),
          (NOISE, .noise NOISE none s.width s.height)],
       baseEdges ++
         [⟨⟨RANGE_OF_SIZE, "collection"⟩, ⟨ITERATE, "collection"⟩⟩,
          ⟨⟨ITERATE, "item"⟩, ⟨NOISE, "seed"⟩⟩, noiseT2LEdge]⟩ := by
  have h1 : ¬ s.iterations = 1 := by omega
  simp [buildTextToImageGraph, addControlNetToLinearGraph, insertNode, hr, h1, hi,
    baseNodes, baseEdges, noiseT2LEdge,
    POSITIVE_CONDITIONING, NEGATIVE_CONDITIONING, TEXT_TO_LATENTS,
    LATENTS_TO_IMAGE, NOISE, RANDOM_INT, RANGE_OF_SIZE, ITERATE]

lemma build_random_multi (s : GenerationState)
    (hr : s.shouldRandomizeSeed = true) (hi : 1 < s.iterations) :
    buildTextToImageGraph s =
      ⟨baseNodes s ++
         [(RANDOM_INT, .randInt RANDOM_INT),
          (RANGE_OF_SIZE, .rangeOfSize RANGE_OF_SIZE none s.iterations),
          (ITERATE, .iterate ITERATE),
          (NOISE, .noise NOISE none s.width s.height)],
       baseEdges ++
         [⟨⟨RANDOM_INT, "a"⟩, ⟨RANGE_OF_SIZE, "start"⟩⟩,
          ⟨⟨RANGE_OF_SIZE, "collection"⟩, ⟨ITERATE, "collection"⟩⟩,
          ⟨⟨ITERATE, "item"⟩, ⟨NOISE, "seed"⟩⟩, noiseT2LEdge]⟩ := by
  have h1 : ¬ s.iterations = 1 := by omega
  simp [buildTextToImageGraph, addControlNetToLinearGraph, insertNode, hr, h1, hi,
    baseNodes, baseEdges, noiseT2LEdge,
    POSITIVE_CONDITIONING, NEGATIVE_CONDITIONING, TEXT_TO_LATENTS,
    LATENTS_TO_IMAGE, NOISE, RANDOM_INT, RANGE_OF_SIZE, ITERATE]

lemma build_no_branch (s : GenerationState) (hi : s.iterations < 1) :
    buildTextToImageGraph s = ⟨baseNodes s, baseEdges⟩ := by
  have h1 : ¬ s.iterations = 1 := by omega
  have h2 : ¬ 1 < s.iterations := by omega
  simp [buildTextToImageGraph, addControlNetToLinearGraph, insertNode, h1, h2,
    baseNodes, baseEdges,
    POSITIVE_CONDITIONING, NEGATIVE_CONDITIONING, TEXT_TO_LATENTS,
    LATENTS_TO_IMAGE, NOISE, RANDOM_INT, RANGE_OF_SIZE, ITERATE]

/-! ### Graph-shape properties -/

/-- A graph has no dangling edges: every edge's source node id and
destination node id are keys of the node map. -/
def noDanglingEdges (g : Graph) : Prop :=
  ∀ e ∈ g.edges, e.source.node_id ∈ g.keys ∧ e.destination.node_id ∈ g.keys

instance (g : Graph) : Decidable (noDanglingEdges g) := by
  unfold noDanglingEdges; infer_instance

/-- Signature of the seed-topology row (randomize=false, iterations>1 false):
a noise node and none of the generator nodes. -/
def seedBranch1 (g : Graph) : Prop :=
  NOISE ∈ g.keys ∧ RANDOM_INT ∉ g.keys ∧ RANGE_OF_SIZE ∉ g.keys ∧
    ITERATE ∉ g.keys

/-- Signature of the row (randomize=true, iterations>1 false): random-int and
noise, no range/iterate nodes. -/
def seedBranch2 (g : Graph) : Prop :=
  NOISE ∈ g.keys ∧ RANDOM_INT ∈ g.keys ∧ RANGE_OF_SIZE ∉ g.keys ∧
    ITERATE ∉ g.keys

/-- Signature of the row (randomize=false, iterations>1 true): range-of-size,
iterate and noise, no random-int node. -/
def seedBranch3 (g : Graph) : Prop :=
  NOISE ∈ g.keys ∧ RANDOM_INT ∉ g.keys ∧ RANGE_OF_SIZE ∈ g.keys ∧
    ITERATE ∈ g.keys

/-- Signature of the row (randomize=true, iterations>1 true): all four
seed-topology nodes present. -/
def seedBranch4 (g : Graph) : Prop :=
  NOISE ∈ g.keys ∧ RANDOM_INT ∈ g.keys ∧ RANGE_OF_SIZE ∈ g.keys ∧
    ITERATE ∈ g.keys

instance (g : Graph) : Decidable (seedBranch1 g) := by
  unfold seedBranch1; infer_instance

instance (g : Graph) : Decidable (seedBranch2 g) := by
  unfold seedBranch2; infer_instance

instance (g : Graph) : Decidable (seedBranch3 g) := by
  unfold seedBranch3; infer_instance

instance (g : Graph) : Decidable (seedBranch4 g) := by
  unfold seedBranch4; infer_instance

/-- How many of the four seed-topology row signatures the graph matches. -/
def seedBranchCount (g : Graph) : Nat :=
  [decide (seedBranch1 g), decide (seedBranch2 g),
   decide (seedBranch3 g), decide (seedBranch4 g)].count true

/-- A configuration used to evaluate the assembler at concrete inputs:
`iterations = 0`, explicit seed policy. -/
def zeroIterState : GenerationState :=
  ⟨"a cat", "blurry", "sd15", 7, "euler", 30, 512, 512, 0, 42, false⟩

/-- Concrete configuration for the (randomize=false, iterations=1) row. -/
def explicitSingleState : GenerationState :=
  ⟨"a cat", "blurry", "sd15", 7, "euler", 30, 512, 512, 1, 42, false⟩

/-- Concrete configuration for the (randomize=true, iterations=1) row. -/
def randomSingleState : GenerationState :=
  ⟨"a cat", "blurry", "sd15", 7, "euler", 30, 512, 512, 1, 42, true⟩

/-- Concrete configuration for the (randomize=false, iterations=5) row. -/
def explicitMultiState : GenerationState :=
  ⟨"a cat", "blurry", "sd15", 7, "euler", 30, 512, 512, 5, 7, false⟩

/-- Concrete configuration for the (randomize=true, iterations=5) row. -/
def randomMultiState : GenerationState :=
  ⟨"a cat", "blurry", "sd15", 7, "euler", 30, 512, 512, 5, 42, true⟩

/-! ### The claims -/

/-- C1: for every configuration snapshot, every edge of the graph returned by
`buildTextToImageGraph` has both its source node id and its destination node
id present as keys of the graph's node map (no dangling edges), with the
feature extender modelled as a no-op. -/
theorem C1_no_dangling_edges (s : GenerationState) :
    noDanglingEdges (buildTextToImageGraph s) := by
  rcases lt_trichotomy s.iterations 1 with h | h | h
  · rw [build_no_branch s h]; exact of_decide_eq_true rfl
  · cases hb : s.shouldRandomizeSeed
    · rw [build_explicit_single s hb h]; exact of_decide_eq_true rfl
    · rw [build_random_single s hb h]; exact of_decide_eq_true rfl
  · cases hb : s.shouldRandomizeSeed
    · rw [build_explicit_multi s hb h]; exact of_decide_eq_true rfl
    · rw [build_random_multi s hb h]; exact of_decide_eq_true rfl

/-- C2 counterexample: at `iterations = 0` (explicit-seed policy) the
returned graph matches no seed-topology row at all, so it is not the case
that exactly one of the four rows fires for every integer `iterations`. -/
theorem C2_zero_rows_at_zero_iterations :
    seedBranchCount (buildTextToImageGraph zeroIterState) ≠ 1 := by decide

/-- C2 (amended): for every configuration with `iterations ≥ 1`, exactly one
of the four seed-topology rows matches the returned graph — never zero and
never more than one. -/
theorem C2_exactly_one_branch (s : GenerationState)
    (hi : 1 ≤ s.iterations) :
    seedBranchCount (buildTextToImageGraph s) = 1 := by
  rcases eq_or_lt_of_le hi with h | h
  · cases hb : s.shouldRandomizeSeed
    · rw [build_explicit_single s hb h.symm]; rfl
    · rw [build_random_single s hb h.symm]; rfl
  · cases hb : s.shouldRandomizeSeed
    · rw [build_explicit_multi s hb h]; rfl
    · rw [build_random_multi s hb h]; rfl

/-- C2 witness: the amended claim at a concrete configuration. -/
theorem C2_exactly_one_branch_witness :
    seedBranchCount (buildTextToImageGraph randomMultiState) = 1 :=
  C2_exactly_one_branch randomMultiState (by decide)

/-- C3: with `shouldRandomizeSeed = false` and `iterations = 1`, the graph
contains the noise node carrying the explicit seed and the given
width/height, no random-int, range-of-size or iterate node, and the edge
noise.noise → text_to_latents.noise. -/
theorem C3_explicit_single (s : GenerationState)
    (hr : s.shouldRandomizeSeed = false) (hi : s.iterations = 1) :
    (NOISE, Node.noise NOISE (some s.seed) s.width s.height) ∈
        (buildTextToImageGraph s).nodes ∧
      RANDOM_INT ∉ (buildTextToImageGraph s).keys ∧
      RANGE_OF_SIZE ∉ (buildTextToImageGraph s).keys ∧
      ITERATE ∉ (buildTextToImageGraph s).keys ∧
      noiseT2LEdge ∈ (buildTextToImageGraph s).edges := by
  rw [build_explicit_single s hr hi]
  refine ⟨?_, ?_, ?_, ?_, ?_⟩ <;>
    simp [Graph.keys, baseNodes, baseEdges, noiseT2LEdge,
      POSITIVE_CONDITIONING, NEGATIVE_CONDITIONING, TEXT_TO_LATENTS,
      LATENTS_TO_IMAGE, NOISE, RANDOM_INT, RANGE_OF_SIZE, ITERATE]

/-- C3 witness: the claim at seed 42, width 512, height 512. -/
theorem C3_explicit_single_witness :
    (NOISE, Node.noise NOISE (some 42) 512 512) ∈
        (buildTextToImageGraph explicitSingleState).nodes ∧
      RANDOM_INT ∉ (buildTextToImageGraph explicitSingleState).keys ∧
      RANGE_OF_SIZE ∉ (buildTextToImageGraph explicitSingleState).keys ∧
      ITERATE ∉ (buildTextToImageGraph explicitSingleState).keys ∧
      noiseT2LEdge ∈ (buildTextToImageGraph explicitSingleState).edges :=
  C3_explicit_single explicitSingleState rfl rfl

/-- C4: with `shouldRandomizeSeed = true` and `iterations = 1`, the graph
contains a random-int node and a noise node with no literal seed, the edge
rand_int.a → noise.seed, and no range-of-size or iterate node. -/
theorem C4_random_single (s : GenerationState)
    (hr : s.shouldRandomizeSeed = true) (hi : s.iterations = 1) :
    (RANDOM_INT, Node.randInt RANDOM_INT) ∈ (buildTextToImageGraph s).nodes ∧
      (NOISE, Node.noise NOISE none s.width s.height) ∈
        (buildTextToImageGraph s).nodes ∧
      (⟨⟨RANDOM_INT, "a"⟩, ⟨NOISE, "seed"⟩⟩ : Edge) ∈
        (buildTextToImageGraph s).edges ∧
      RANGE_OF_SIZE ∉ (buildTextToImageGraph s).keys ∧
      ITERATE ∉ (buildTextToImageGraph s).keys := by
  rw [build_random_single s hr hi]
  refine ⟨?_, ?_, ?_, ?_, ?_⟩ <;>
    simp [Graph.keys, baseNodes, baseEdges, noiseT2LEdge,
      POSITIVE_CONDITIONING, NEGATIVE_CONDITIONING, TEXT_TO_LATENTS,
      LATENTS_TO_IMAGE, NOISE, RANDOM_INT, RANGE_OF_SIZE, ITERATE]

/-- C4 witness: the claim at a concrete randomize-single configuration. -/
theorem C4_random_single_witness :
    (RANDOM_INT, Node.randInt RANDOM_INT) ∈
        (buildTextToImageGraph randomSingleState).nodes ∧
      (NOISE, Node.noise NOISE none 512 512) ∈
        (buildTextToImageGraph randomSingleState).nodes ∧
      (⟨⟨RANDOM_INT, "a"⟩, ⟨NOISE, "seed"⟩⟩ : Edge) ∈
        (buildTextToImageGraph randomSingleState).edges ∧
      RANGE_OF_SIZE ∉ (buildTextToImageGraph randomSingleState).keys ∧
      ITERATE ∉ (buildTextToImageGraph randomSingleState).keys :=
  C4_random_single randomSingleState rfl rfl

/-- C5: with `shouldRandomizeSeed = false` and `iterations > 1`, the graph
contains a range-of-size node with start = seed and size = iterations, an
iterate node, a noise node without a literal seed, and the edges
range_of_size.collection → iterate.collection and iterate.item →
noise.seed. -/
theorem C5_explicit_multi (s : GenerationState)
    (hr : s.shouldRandomizeSeed = false) (hi : 1 < s.iterations) :
    (RANGE_OF_SIZE, Node.rangeOfSize RANGE_OF_SIZE (some s.seed)
          s.iterations) ∈ (buildTextToImageGraph s).nodes ∧
      (ITERATE, Node.iterate ITERATE) ∈ (buildTextToImageGraph s).nodes ∧
      (NOISE, Node.noise NOISE none s.width s.height) ∈
        (buildTextToImageGraph s).nodes ∧
      (⟨⟨RANGE_OF_SIZE, "collection"⟩, ⟨ITERATE, "collection"⟩⟩ : Edge) ∈
        (buildTextToImageGraph s).edges ∧
      (⟨⟨ITERATE, "item"⟩, ⟨NOISE, "seed"⟩⟩ : Edge) ∈
        (buildTextToImageGraph s).edges := by
  rw [build_explicit_multi s hr hi]
  refine ⟨?_, ?_, ?_, ?_, ?_⟩ <;>
    simp [Graph.keys, baseNodes, baseEdges, noiseT2LEdge,
      POSITIVE_CONDITIONING, NEGATIVE_CONDITIONING, TEXT_TO_LATENTS,
      LATENTS_TO_IMAGE, NOISE, RANDOM_INT, RANGE_OF_SIZE, ITERATE]

/-- C5 witness: the claim at iterations 5, seed 7. -/
theorem C5_explicit_multi_witness :
    (RANGE_OF_SIZE, Node.rangeOfSize RANGE_OF_SIZE (some 7) 5) ∈
        (buildTextToImageGraph explicitMultiState).nodes ∧
      (ITERATE, Node.iterate ITERATE) ∈
        (buildTextToImageGraph explicitMultiState).nodes ∧
      (NOISE, Node.noise NOISE none 512 512) ∈
        (buildTextToImageGraph explicitMultiState).nodes ∧
      (⟨⟨RANGE_OF_SIZE, "collection"⟩, ⟨ITERATE, "collection"⟩⟩ : Edge) ∈
        (buildTextToImageGraph explicitMultiState).edges ∧
      (⟨⟨ITERATE, "item"⟩, ⟨NOISE, "seed"⟩⟩ : Edge) ∈
        (buildTextToImageGraph explicitMultiState).edges :=
  C5_explicit_multi explicitMultiState rfl (by decide)

/-- C6: with `shouldRandomizeSeed = true` and `iterations > 1`, the graph
contains a random-int node, a range-of-size node with size = iterations and
no literal start, an iterate node, a noise node without a literal seed, and
the edge rand_int.a → range_of_size.start in addition to the
range → iterate → noise.seed wiring. -/
theorem C6_random_multi (s : GenerationState)
    (hr : s.shouldRandomizeSeed = true) (hi : 1 < s.iterations) :
    (RANDOM_INT, Node.randInt RANDOM_INT) ∈ (buildTextToImageGraph s).nodes ∧
      (RANGE_OF_SIZE, Node.rangeOfSize RANGE_OF_SIZE none s.iterations) ∈
        (buildTextToImageGraph s).nodes ∧
      (ITERATE, Node.iterate ITERATE) ∈ (buildTextToImageGraph s).nodes ∧
      (NOISE, Node.noise NOISE none s.width s.height) ∈
        (buildTextToImageGraph s).nodes ∧
      (⟨⟨RANDOM_INT, "a"⟩, ⟨RANGE_OF_SIZE, "start"⟩⟩ : Edge) ∈
        (buildTextToImageGraph s).edges ∧
      (⟨⟨RANGE_OF_SIZE, "collection"⟩, ⟨ITERATE, "collection"⟩⟩ : Edge) ∈
        (buildTextToImageGraph s).edges ∧
      (⟨⟨ITERATE, "item"⟩, ⟨NOISE, "seed"⟩⟩ : Edge) ∈
        (buildTextToImageGraph s).edges := by
  rw [build_random_multi s hr hi]
  refine ⟨?_, ?_, ?_, ?_, ?_, ?_, ?_⟩ <;>
    simp [Graph.keys, baseNodes, baseEdges, noiseT2LEdge,
      POSITIVE_CONDITIONING, NEGATIVE_CONDITIONING, TEXT_TO_LATENTS,
      LATENTS_TO_IMAGE, NOISE, RANDOM_INT, RANGE_OF_SIZE, ITERATE]

/-- C6 witness: the claim at iterations 5 with randomized seed. -/
theorem C6_random_multi_witness :
    (RANDOM_INT, Node.randInt RANDOM_INT) ∈
        (buildTextToImageGraph randomMultiState).nodes ∧
      (RANGE_OF_SIZE, Node.rangeOfSize RANGE_OF_SIZE none 5) ∈
        (buildTextToImageGraph randomMultiState).nodes ∧
      (ITERATE, Node.iterate ITERATE) ∈
        (buildTextToImageGraph randomMultiState).nodes ∧
      (NOISE, Node.noise NOISE none 512 512) ∈
        (buildTextToImageGraph randomMultiState).nodes ∧
      (⟨⟨RANDOM_INT, "a"⟩, ⟨RANGE_OF_SIZE, "start"⟩⟩ : Edge) ∈
        (buildTextToImageGraph randomMultiState).edges ∧
      (⟨⟨RANGE_OF_SIZE, "collection"⟩, ⟨ITERATE, "collection"⟩⟩ : Edge) ∈
        (buildTextToImageGraph randomMultiState).edges ∧
      (⟨⟨ITERATE, "item"⟩, ⟨NOISE, "seed"⟩⟩ : Edge) ∈
        (buildTextToImageGraph randomMultiState).edges :=
  C6_random_multi randomMultiState rfl (by decide)

/-- C7: for every configuration, the three fixed sub-pipeline edges and the
four fixed nodes (carrying the prompts, model, guidance scale, scheduler and
step count from the configuration) are in the returned graph. -/
theorem C7_fixed_pipeline (s : GenerationState) :
    (⟨⟨POSITIVE_CONDITIONING, "conditioning"⟩,
       ⟨TEXT_TO_LATENTS, "positive_conditioning"⟩⟩ : Edge) ∈
        (buildTextToImageGraph s).edges ∧
      (⟨⟨NEGATIVE_CONDITIONING, "conditioning"⟩,
         ⟨TEXT_TO_LATENTS, "negative_conditioning"⟩⟩ : Edge) ∈
        (buildTextToImageGraph s).edges ∧
      (⟨⟨TEXT_TO_LATENTS, "latents"⟩, ⟨LATENTS_TO_IMAGE, "latents"⟩⟩ :
          Edge) ∈ (buildTextToImageGraph s).edges ∧
      (POSITIVE_CONDITIONING,
          Node.compel POSITIVE_CONDITIONING s.positivePrompt s.model) ∈
        (buildTextToImageGraph s).nodes ∧
      (NEGATIVE_CONDITIONING,
          Node.compel NEGATIVE_CONDITIONING s.negativePrompt s.model) ∈
        (buildTextToImageGraph s).nodes ∧
      (TEXT_TO_LATENTS,
          Node.t2l TEXT_TO_LATENTS s.cfgScale s.model s.scheduler s.steps) ∈
        (buildTextToImageGraph s).nodes ∧
      (LATENTS_TO_IMAGE, Node.l2i LATENTS_TO_IMAGE s.model) ∈
        (buildTextToImageGraph s).nodes := by
  rcases lt_trichotomy s.iterations 1 with h | h | h
  · rw [build_no_branch s h]
    refine ⟨?_, ?_, ?_, ?_, ?_, ?_, ?_⟩ <;>
      simp [Graph.keys, baseNodes, baseEdges,
        POSITIVE_CONDITIONING, NEGATIVE_CONDITIONING, TEXT_TO_LATENTS,
        LATENTS_TO_IMAGE, NOISE, RANDOM_INT, RANGE_OF_SIZE, ITERATE]
  · cases hb : s.shouldRandomizeSeed
    · rw [build_explicit_single s hb h]
      refine ⟨?_, ?_, ?_, ?_, ?_, ?_, ?_⟩ <;>
        simp [Graph.keys, baseNodes, baseEdges,
          POSITIVE_CONDITIONING, NEGATIVE_CONDITIONING, TEXT_TO_LATENTS,
          LATENTS_TO_IMAGE, NOISE, RANDOM_INT, RANGE_OF_SIZE, ITERATE]
    · rw [build_random_single s hb h]
      refine ⟨?_, ?_, ?_, ?_, ?_, ?_, ?_⟩ <;>
        simp [Graph.keys, baseNodes, baseEdges,
          POSITIVE_CONDITIONING, NEGATIVE_CONDITIONING, TEXT_TO_LATENTS,
          LATENTS_TO_IMAGE, NOISE, RANDOM_INT, RANGE_OF_SIZE, ITERATE]
  · cases hb : s.shouldRandomizeSeed
    · rw [build_explicit_multi s hb h]
      refine ⟨?_, ?_, ?_, ?_, ?_, ?_, ?_⟩ <;>
        simp [Graph.keys, baseNodes, baseEdges,
          POSITIVE_CONDITIONING, NEGATIVE_CONDITIONING, TEXT_TO_LATENTS,
          LATENTS_TO_IMAGE, NOISE, RANDOM_INT, RANGE_OF_SIZE, ITERATE]
    · rw [build_random_multi s hb h]
      refine ⟨?_, ?_, ?_, ?_, ?_, ?_, ?_⟩ <;>
        simp [Graph.keys, baseNodes, baseEdges,
          POSITIVE_CONDITIONING, NEGATIVE_CONDITIONING, TEXT_TO_LATENTS,
          LATENTS_TO_IMAGE, NOISE, RANDOM_INT, RANGE_OF_SIZE, ITERATE]

/-- C8: the assembler is deterministic — two invocations on the same
configuration value return structurally identical graphs: the same node map
and the same edge sequence. -/
theorem C8_deterministic (s t : GenerationState) (h : s = t) :
    (buildTextToImageGraph s).nodes = (buildTextToImageGraph t).nodes ∧
      (buildTextToImageGraph s).edges = (buildTextToImageGraph t).edges := by
  subst h; exact ⟨rfl, rfl⟩

/-- C8 witness: two invocations on the same concrete configuration value. -/
theorem C8_deterministic_witness :
    (buildTextToImageGraph explicitSingleState).nodes =
        (buildTextToImageGraph explicitSingleState).nodes ∧
      (buildTextToImageGraph explicitSingleState).edges =
        (buildTextToImageGraph explicitSingleState).edges :=
  C8_deterministic explicitSingleState explicitSingleState rfl

/-- C9: for every configuration, the node-id keys of the returned graph are
pairwise distinct and every stored node's own `id` equals its map key. -/
theorem C9_unique_node_ids (s : GenerationState) :
    (buildTextToImageGraph s).keys.Nodup ∧
      ∀ p ∈ (buildTextToImageGraph s).nodes, p.2.id = p.1 := by
  rcases lt_trichotomy s.iterations 1 with h | h | h
  · rw [build_no_branch s h]
    constructor
    · exact of_decide_eq_true rfl
    · intro p hp
      simp [baseNodes] at hp
      rcases hp with h1 | h1 | h1 | h1 <;> subst h1 <;> rfl
  · cases hb : s.shouldRandomizeSeed
    · rw [build_explicit_single s hb h]
      constructor
      · exact of_decide_eq_true rfl
      · intro p hp
        simp [baseNodes] at hp
        rcases hp with h1 | h1 | h1 | h1 | h1 <;> subst h1 <;> rfl
    · rw [build_random_single s hb h]
      constructor
      · exact of_decide_eq_true rfl
      · intro p hp
        simp [baseNodes] at hp
        rcases hp with h1 | h1 | h1 | h1 | h1 | h1 <;> subst h1 <;> rfl
  · cases hb : s.shouldRandomizeSeed
    · rw [build_explicit_multi s hb h]
      constructor
      · exact of_decide_eq_true rfl
      · intro p hp
        simp [baseNodes] at hp
        rcases hp with h1 | h1 | h1 | h1 | h1 | h1 | h1 <;> subst h1 <;> rfl
    · rw [build_random_multi s hb h]
      constructor
      · exact of_decide_eq_true rfl
      · intro p hp
        simp [baseNodes] at hp
        rcases hp with h1 | h1 | h1 | h1 | h1 | h1 | h1 | h1 <;>
          subst h1 <;> rfl

/-- C10: with `iterations < 1` (any seed policy), no seed-topology branch
fires: the returned graph is exactly the four fixed nodes and the three
fixed edges, with no noise node and no edge into text_to_latents.noise. -/
theorem C10_below_one_iteration (s : GenerationState)
    (hi : s.iterations < 1) :
    (buildTextToImageGraph s).nodes = baseNodes s ∧
      (buildTextToImageGraph s).edges = baseEdges ∧
      NOISE ∉ (buildTextToImageGraph s).keys ∧
      ∀ e ∈ (buildTextToImageGraph s).edges,
        e.destination ≠ ⟨TEXT_TO_LATENTS, "noise"⟩ := by
  rw [build_no_branch s hi]
  refine ⟨rfl, rfl, ?_, ?_⟩ <;> exact of_decide_eq_true rfl

/-- C10 witness: the claim at iterations = 0. -/
theorem C10_below_one_iteration_witness :
    (buildTextToImageGraph zeroIterState).nodes = baseNodes zeroIterState ∧
      (buildTextToImageGraph zeroIterState).edges = baseEdges ∧
      NOISE ∉ (buildTextToImageGraph zeroIterState).keys ∧
      ∀ e ∈ (buildTextToImageGraph zeroIterState).edges,
        e.destination ≠ ⟨TEXT_TO_LATENTS, "noise"⟩ :=
  C10_below_one_iteration zeroIterState (by decide)

end T2I
